import Mathlib

/-!
Verification of the transform-and-partition core of the amplitude-change-user-id
scripts: `scripts/convert_events.py` (Normalizer) and `scripts/bundle_requests.py`
(PayloadSizer and Batcher).  JSON values are modelled by the inductive `Json`
below (numbers are modelled as integers; the record inputs exercised here use
integral numbers only).  Python dicts appear as association lists in insertion
order, mirroring `json.loads` / `json.dumps` behaviour on objects with distinct
keys.  Byte sizes of `json.dumps` output are computed directly as numbers,
separately tracking the bytes contributed by the item/key separators, because
the scripts serialize the same payload once with the default separators
`", "` / `": "` (2 bytes each) and once with the compact separators
`","` / `":"` (1 byte each).
-/

/-- A JSON value as handled by the scripts.  `obj` keeps fields in insertion
order, matching Python dict semantics for the distinct-key objects produced by
`json.loads` on one export line. -/
inductive Json where
  | null : Json
  | bool (b : Bool) : Json
  | num (n : Int) : Json
  | str (s : String) : Json
  | arr (elems : List Json) : Json
  | obj (fields : List (String × Json)) : Json

/-- A raw or converted event record: a Python dict with string keys. -/
abbrev RawEvent := List (String × Json)

/-- Python truthiness of a JSON value, as used by `if event[field]:`,
`if timestamp:` and `upload_event.get(...)` checks in the scripts:
`None`, `False`, `0`, `""`, `[]` and `{}` are falsy. -/
def truthy : Json → Bool
  | Json.null => false
  | Json.bool b => b
  | Json.num n => n != 0
  | Json.str s => s != ""
  | Json.arr l => !l.isEmpty
  | Json.obj l => !l.isEmpty

/-- Truthiness of `dict.get(key)`: a missing key yields `None`, which is falsy. -/
def truthyOpt : Option Json → Bool
  | none => false
  | some v => truthy v

/-- Number of bytes `json.dumps` (with `ensure_ascii=True`, the default used by
both scripts) emits for one character of a string: `"` and `\` become 2-byte
escapes, the short control escapes are 2 bytes, other chars below 0x20 and all
chars from 0x7f to 0xffff become 6-byte `\uXXXX` escapes, chars above 0xffff
become surrogate pairs (12 bytes), and printable ASCII passes through. -/
def escLen (c : Char) : Nat :=
  let n := c.toNat
  if n = 34 || n = 92 then 2
  else if n = 8 || n = 9 || n = 10 || n = 12 || n = 13 then 2
  else if n < 32 then 6
  else if n ≤ 126 then 1
  else if n ≤ 65535 then 6
  else 12

/-- Byte length of the `json.dumps` serialization of a string: two quotes plus
the escaped characters. -/
def strBytes (s : String) : Nat :=
  s.data.foldl (fun a c => a + escLen c) 2

/-- Byte length of the serialization of an integer (its decimal form, with a
leading minus sign when negative), as `json.dumps` emits for a Python int. -/
def numBytes (n : Int) : Nat := (toString n).length

mutual

/-- Serialization size of a JSON value, split as (base bytes, separator count).
The base bytes count braces, brackets, quotes, escaped string contents and
digits; the separator count is the number of item separators (the comma after
a list element or object pair) plus key separators (the colon after an object
key).  `json.dumps` with the default separators `", "` / `": "` spends 2 bytes
per separator; with `separators=(',', ':')` it spends 1 byte per separator. -/
def serCount : Json → Nat × Nat
  | Json.null => (4, 0)
  | Json.bool true => (4, 0)
  | Json.bool false => (5, 0)
  | Json.num n => (numBytes n, 0)
  | Json.str s => (strBytes s, 0)
  | Json.arr l => let r := serCountArr l; (2 + r.1, r.2)
  | Json.obj l => let r := serCountObj l; (2 + r.1, r.2)

/-- Base bytes and separator count contributed by the elements of a JSON array
(one comma separator between adjacent elements). -/
def serCountArr : List Json → Nat × Nat
  | [] => (0, 0)
  | [x] => serCount x
  | x :: y :: xs =>
    let c := serCount x
    let r := serCountArr (y :: xs)
    (c.1 + r.1, c.2 + 1 + r.2)

/-- Base bytes and separator count contributed by the fields of a JSON object
(one colon separator per pair, one comma separator between adjacent pairs). -/
def serCountObj : List (String × Json) → Nat × Nat
  | [] => (0, 0)
  | [(k, v)] =>
    let c := serCount v
    (strBytes k + c.1, 1 + c.2)
  | (k, v) :: p :: xs =>
    let c := serCount v
    let r := serCountObj (p :: xs)
    (strBytes k + c.1 + r.1, 2 + c.2 + r.2)

end

/-- Byte length of `json.dumps` output for a JSON value, where each separator
costs `w` bytes: `w = 2` models the default separators `", "` / `": "` used by
`estimate_payload_size`, and `w = 1` models `separators=(',', ':')` used by
`generate_curl_script` for the request body. -/
def dumpsBytes (w : Nat) (j : Json) : Nat :=
  (serCount j).1 + w * (serCount j).2

/-- API limit constant `MAX_EVENTS_PER_BATCH = 2000` from bundle_requests.py. -/
def MAX_EVENTS_PER_BATCH : Nat := 2000

/-- API limit constant `MAX_PAYLOAD_BYTES = 20 * 1024 * 1024` from
bundle_requests.py (documentation only; the batching loop uses the safe
limit below). -/
def MAX_PAYLOAD_BYTES : Nat := 20 * 1024 * 1024

/-- Headroom constant `SAFE_PAYLOAD_BYTES = 19 * 1024 * 1024` from
bundle_requests.py; this is the byte ceiling the batching loop enforces. -/
def SAFE_PAYLOAD_BYTES : Nat := 19 * 1024 * 1024

/-- Embedding of `create_payload(api_key, events)`: the dict
with keys `api_key` and `events` in that insertion order. -/
def create_payload (api_key : String) (events : List Json) : Json :=
  Json.obj [("api_key", Json.str api_key), ("events", Json.arr events)]

/-- Embedding of `estimate_payload_size(api_key, events)`:
`len(json.dumps(payload).encode('utf-8'))` with the default separators
`", "` / `": "`, i.e. 2 bytes per separator.  With `ensure_ascii=True` the
dumped text is pure ASCII, so the UTF-8 byte length equals the character
count modelled by `dumpsBytes`. -/
def estimate_payload_size (api_key : String) (events : List Json) : Nat :=
  dumpsBytes 2 (create_payload api_key events)

/-- Byte length of the request body that `generate_curl_script` embeds in the
generated shell script and POSTs with `curl -d`:
`json.dumps(payload, separators=(',', ':'))`, i.e. 1 byte per separator.
(The single-quote shell escaping is undone by the shell, so these are exactly
the bytes sent.) -/
def curl_body_bytes (api_key : String) (events : List Json) : Nat :=
  dumpsBytes 1 (create_payload api_key events)

/-- Embedding of the `if current_batch: batches.append(current_batch)` step of
`batch_events`: close the current batch onto the emitted list unless it is
empty. -/
def closeB (batches : List (List Json)) (current : List Json) : List (List Json) :=
  if current.isEmpty then batches else batches ++ [current]

/-- One iteration of the loop body of `batch_events`: form the trial batch
`current_batch + [event]`; if it breaks the count limit or the estimated size
limit, close the current batch and start a new one holding only this event;
otherwise the trial batch becomes the current batch. -/
def batchStep (api_key : String) (acc : List (List Json) × List Json) (event : Json) :
    List (List Json) × List Json :=
  if MAX_EVENTS_PER_BATCH < (acc.2 ++ [event]).length then
    (closeB acc.1 acc.2, [event])
  else if SAFE_PAYLOAD_BYTES < estimate_payload_size api_key (acc.2 ++ [event]) then
    (closeB acc.1 acc.2, [event])
  else
    (acc.1, acc.2 ++ [event])

/-- Embedding of `batch_events(events, api_key)` from bundle_requests.py:
fold the loop body over the events starting from no emitted batches and an
empty current batch, then close the final batch if non-empty. -/
def batch_events (events : List Json) (api_key : String) : List (List Json) :=
  let r := events.foldl (batchStep api_key) ([], [])
  closeB r.1 r.2

/-- A family of JSON values of exponentially growing serialized size:
`bigN (n+1)` is a two-element array holding two copies of `bigN n`.  Used to
exhibit a single event whose envelope exceeds `SAFE_PAYLOAD_BYTES`. -/
def bigN : Nat → Json
  | 0 => Json.num 0
  | n + 1 => Json.arr [bigN n, bigN n]

/-- ASCII whitespace as recognised by Python's regex `\s` and `str.strip()`
(unicode whitespace beyond ASCII is not exercised by these scripts). -/
def isPyWs (c : Char) : Bool :=
  c == ' ' || c == '\t' || c == '\n' || c == '\r' || c == '\x0b' || c == '\x0c'

/-- Numeric value of a decimal digit character. -/
def dv (c : Char) : Nat := c.toNat - 48

/-- Parse exactly four decimal digits (the `%Y` directive of `strptime`). -/
def parse4 : List Char → Option (Nat × List Char)
  | a :: b :: c :: d :: rest =>
    if a.isDigit && b.isDigit && c.isDigit && d.isDigit then
      some (dv a * 1000 + dv b * 100 + dv c * 10 + dv d, rest)
    else none
  | _ => none

/-- Parse a one-or-two digit numeric field of `strptime` (the `%m`, `%d`,
`%H`, `%M`, `%S` directives).  When two digits are available the two-digit
reading must fall within `[lo2, hi2]` (backtracking to one digit cannot help,
because every following format token rejects a digit); a single available
digit must fall within `[lo1, hi1]`. -/
def parse2or1 (lo2 hi2 lo1 hi1 : Nat) : List Char → Option (Nat × List Char)
  | a :: b :: rest =>
    if a.isDigit && b.isDigit then
      let v := dv a * 10 + dv b
      if lo2 ≤ v ∧ v ≤ hi2 then some (v, rest) else none
    else if a.isDigit then
      let v := dv a
      if lo1 ≤ v ∧ v ≤ hi1 then some (v, b :: rest) else none
    else none
  | [a] =>
    if a.isDigit then
      let v := dv a
      if lo1 ≤ v ∧ v ≤ hi1 then some (v, []) else none
    else none
  | [] => none

/-- Match one literal character of the `strptime` format. -/
def parseLitChar (c : Char) : List Char → Option (List Char)
  | x :: rest => if x == c then some rest else none
  | [] => none

/-- Match the literal space in the format, which `strptime` compiles to one or
more whitespace characters. -/
def parseWs1 : List Char → Option (List Char)
  | x :: rest => if isPyWs x then some (rest.dropWhile isPyWs) else none
  | [] => none

/-- Calendar and clock fields parsed from a timestamp string, before epoch
conversion.  `usec` holds the `%f` microseconds (0 when absent). -/
structure DT where
  year : Nat
  month : Nat
  day : Nat
  hour : Nat
  minute : Nat
  second : Nat
  usec : Nat

/-- Parse the common prefix `%Y-%m-%d %H:%M:%S` of both formats tried by
`parse_timestamp`, following the regexes `strptime` compiles: 4-digit year,
1-2 digit month 1-12, day 1-31, hour 0-23, minute 0-59, second 0-61 (the
61 allowance for leap seconds is rejected later by the datetime constructor). -/
def parseStamp (cs : List Char) : Option (DT × List Char) := do
  let (y, r1) ← parse4 cs
  let r2 ← parseLitChar '-' r1
  let (mo, r3) ← parse2or1 1 12 1 9 r2
  let r4 ← parseLitChar '-' r3
  let (d, r5) ← parse2or1 1 31 1 9 r4
  let r6 ← parseWs1 r5
  let (h, r7) ← parse2or1 0 23 0 9 r6
  let r8 ← parseLitChar ':' r7
  let (mi, r9) ← parse2or1 0 59 0 9 r8
  let r10 ← parseLitChar ':' r9
  let (s, r11) ← parse2or1 0 61 0 9 r10
  pure (⟨y, mo, d, h, mi, s, 0⟩, r11)

/-- Consume the remaining 1-6 fraction digits of `%f` after the first one
(`acc` is the value so far, `k` the digits consumed); the value is
right-padded with zeros to microseconds, as `_strptime` does.  Any leftover
character, including a seventh digit, makes the whole parse fail
("unconverted data remains"). -/
def fracGo : Nat → Nat → List Char → Option Nat
  | acc, k, [] => some (acc * 10 ^ (6 - k))
  | acc, k, c :: rest =>
    if c.isDigit && k < 6 then fracGo (acc * 10 + dv c) (k + 1) rest else none

/-- Finish a parse with the format `"%Y-%m-%d %H:%M:%S"`: no characters may
remain. -/
def finishNoFrac : DT × List Char → Option DT
  | (t, []) => some t
  | _ => none

/-- Finish a parse with the format `"%Y-%m-%d %H:%M:%S.%f"`: a literal dot,
then 1-6 digits, then the end of the string. -/
def finishFrac : DT × List Char → Option DT
  | (t, '.' :: c :: rest) =>
    if c.isDigit then
      (fracGo (dv c) 1 rest).map
        (fun us => ⟨t.year, t.month, t.day, t.hour, t.minute, t.second, us⟩)
    else none
  | _ => none

/-- Gregorian leap-year rule. -/
def isLeap (y : Nat) : Bool := y % 4 == 0 && (y % 100 != 0 || y % 400 == 0)

/-- Length of a month, used by the datetime constructor's range check. -/
def daysInMonth (y m : Nat) : Nat :=
  if m = 2 then (if isLeap y then 29 else 28)
  else if m = 4 ∨ m = 6 ∨ m = 9 ∨ m = 11 then 30
  else 31

/-- The validation the `datetime` constructor performs on fields that the
`strptime` regex alone does not pin down: the year at least `MINYEAR = 1`,
the day within the month, and seconds at most 59 (so the 60/61 leap-second
readings admitted by the regex raise and count as a failed parse). -/
def checkDT (t : DT) : Option DT :=
  if 1 ≤ t.year ∧ t.day ≤ daysInMonth t.year t.month ∧ t.second ≤ 59 then some t else none

/-- Embedding of
`datetime.strptime(ts_str, "%Y-%m-%d %H:%M:%S.%f" if "." in ts_str else "%Y-%m-%d %H:%M:%S")`
with the constructor failure folded into the `Option`: the caller catches
`ValueError`, so a failed parse and a raised constructor are the same outcome. -/
def strptimeEvt (s : String) : Option DT :=
  let cs := s.data
  (if cs.contains '.' then (parseStamp cs).bind finishFrac
   else (parseStamp cs).bind finishNoFrac).bind checkDT

/-- Days from 1970-01-01 to the given civil date (proleptic Gregorian),
by the standard era decomposition; defined for years from 1 upward. -/
def daysFromCivil (y m d : Nat) : Int :=
  let y' : Nat := if m ≤ 2 then y - 1 else y
  let era : Nat := y' / 400
  let yoe : Nat := y' % 400
  let mp : Nat := if 2 < m then m - 3 else m + 9
  let doy : Nat := (153 * mp + 2) / 5 + d - 1
  let doe : Nat := yoe * 365 + yoe / 4 - yoe / 100 + doy
  (era * 146097 + doe : Int) - 719468

/-- Seconds from the epoch to the parsed wall-clock time, before the local
UTC offset is applied (microseconds excluded). -/
def wallSeconds (t : DT) : Int :=
  daysFromCivil t.year t.month t.day * 86400 +
    ((t.hour * 3600 + t.minute * 60 + t.second : Nat) : Int)

/-- Embedding of `int(dt.timestamp() * 1000)` for the naive datetime `dt`:
CPython interprets a naive datetime in the process's local timezone, so the
POSIX timestamp is the wall-clock seconds minus `tzOff`, the local UTC offset
in seconds (modelled as a fixed offset); `int()` truncates toward zero, which
`Int.tdiv` reproduces exactly on the rational `timestamp * 1000`. -/
def toMillis (tzOff : Int) (t : DT) : Int :=
  Int.tdiv ((wallSeconds t - tzOff) * 1000000 + (t.usec : Int)) 1000

/-- The timestamp fields tried by `parse_timestamp`, in the source's order. -/
def tsFields : List String := ["event_time", "client_event_time", "server_received_time"]

/-- One iteration of the field loop in `parse_timestamp`: the field must be
present and truthy; a non-string value raises `TypeError` inside the `try`
(caught, hence `none`), and a string is parsed with `strptime` (a
`ValueError` is likewise caught). -/
def tryField (ev : RawEvent) (f : String) : Option DT :=
  match List.lookup f ev with
  | some v =>
    if truthy v then
      match v with
      | Json.str s => strptimeEvt s
      | _ => none
    else none
  | none => none

/-- Consume digits, allowing single underscores between digits, as Python's
`int(str)` grammar does; `acc` is the value of the digits read so far. -/
def pyDigitsGo (acc : Nat) : List Char → Option Nat
  | [] => some acc
  | '_' :: c :: rest => if c.isDigit then pyDigitsGo (acc * 10 + dv c) rest else none
  | ['_'] => none
  | c :: rest => if c.isDigit then pyDigitsGo (acc * 10 + dv c) rest else none

/-- Parse a non-empty digit run with optional grouping underscores. -/
def pyDigits : List Char → Option Nat
  | c :: rest => if c.isDigit then pyDigitsGo (dv c) rest else none
  | [] => none

/-- Strip surrounding whitespace, as `int(str)` does before parsing. -/
def pyStrip (cs : List Char) : List Char :=
  ((cs.dropWhile isPyWs).reverse.dropWhile isPyWs).reverse

/-- Embedding of Python `int(s)` for a string argument: optional surrounding
whitespace, an optional sign, then digits with optional grouping underscores;
anything else raises `ValueError` (`none` here). -/
def pyIntOfStr (s : String) : Option Int :=
  match pyStrip s.data with
  | '+' :: rest => (pyDigits rest).map (fun n => (n : Int))
  | '-' :: rest => (pyDigits rest).map (fun n => -(n : Int))
  | cs => (pyDigits cs).map (fun n => (n : Int))

/-- Embedding of Python `int(value)` on a JSON value: ints pass through,
bools convert to 0/1, strings parse as integers, and everything else raises
(`none` here; the caller does not catch this one). -/
def pyInt : Json → Option Int
  | Json.num n => some n
  | Json.bool b => some (if b then 1 else 0)
  | Json.str s => pyIntOfStr s
  | _ => none

/-- Embedding of `parse_timestamp(event)` from convert_events.py, with the
process's local UTC offset `tzOff` made explicit (the naive
`datetime.timestamp()` call depends on it).  The three string timestamp
fields are tried in order and the first successful parse wins; otherwise a
present and truthy `time` field is converted with `int()`, whose failure is
not caught anywhere and escapes as an exception (`Except.error`). -/
def parse_timestamp (tzOff : Int) (ev : RawEvent) : Except Unit (Option Int) :=
  match tsFields.findSome? (tryField ev) with
  | some t => Except.ok (some (toMillis tzOff t))
  | none =>
    match List.lookup "time" ev with
    | some v =>
      if truthy v then
        match pyInt v with
        | some n => Except.ok (some n)
        | none => Except.error ()
      else Except.ok none
    | none => Except.ok none

/-- The `FIELD_MAPPING` allow-list of convert_events.py, in source order;
every source name maps to itself. -/
def FIELD_MAPPING : List (String × String) :=
  [("user_id", "user_id"),
   ("device_id", "device_id"),
   ("event_type", "event_type"),
   ("event_properties", "event_properties"),
   ("user_properties", "user_properties"),
   ("group_properties", "group_properties"),
   ("groups", "groups"),
   ("session_id", "session_id"),
   ("event_id", "event_id"),
   ("insert_id", "insert_id"),
   ("platform", "platform"),
   ("os_name", "os_name"),
   ("os_version", "os_version"),
   ("device_brand", "device_brand"),
   ("device_manufacturer", "device_manufacturer"),
   ("device_model", "device_model"),
   ("device_type", "device_type"),
   ("carrier", "carrier"),
   ("country", "country"),
   ("region", "region"),
   ("city", "city"),
   ("dma", "dma"),
   ("location_lat", "location_lat"),
   ("location_lng", "location_lng"),
   ("language", "language"),
   ("ip_address", "ip_address"),
   ("library", "library"),
   ("app_version", "app_version"),
   ("price", "price"),
   ("quantity", "quantity"),
   ("revenue", "revenue"),
   ("productId", "productId"),
   ("revenueType", "revenueType"),
   ("idfa", "idfa"),
   ("idfv", "idfv"),
   ("adid", "adid"),
   ("android_id", "android_id")]

/-- The copy filter of the field-mapping loop: a looked-up value is copied
unless it `is None`, `== ""`, or `== {}` (so `0`, `false`, and `[]` are
copied). -/
def keptValue : Json → Bool
  | Json.null => false
  | Json.str s => s != ""
  | Json.obj l => !l.isEmpty
  | _ => true

/-- The field-mapping loop of `convert_event`: for each allow-list pair in
order, copy a present, kept value to the target name.  Targets are distinct,
so dict insertion is modelled by appending. -/
def mapFields (ev : RawEvent) : List (String × Json) :=
  FIELD_MAPPING.foldl
    (fun acc p =>
      match List.lookup p.1 ev with
      | some v => if keptValue v then acc ++ [(p.2, v)] else acc
      | none => acc)
    []

/-- The `if timestamp: upload_event["time"] = timestamp` step of
`convert_event`: the resolved timestamp is added only when truthy, i.e.
present and nonzero. -/
def withTime (upload : List (String × Json)) (ts : Option Int) : List (String × Json) :=
  match ts with
  | some t => if t != 0 then upload ++ [("time", Json.num t)] else upload
  | none => upload

/-- The required-field validation at the end of `convert_event`, using Python
truthiness of `upload_event.get(...)`: reject (return `none`) unless some
identity field is truthy and `event_type` is truthy. -/
def validationGate (upload : List (String × Json)) : Except Unit (Option RawEvent) :=
  if truthyOpt (List.lookup "user_id" upload) || truthyOpt (List.lookup "device_id" upload) then
    if truthyOpt (List.lookup "event_type" upload) then Except.ok (some upload)
    else Except.ok none
  else Except.ok none

/-- Embedding of `convert_event(export_event)` from convert_events.py:
map the allow-listed fields, resolve the timestamp (adding `time` only when
the resolved value is truthy, i.e. nonzero), then apply the validation gate.
A `parse_timestamp` exception propagates. -/
def convert_event (tzOff : Int) (ev : RawEvent) : Except Unit (Option RawEvent) :=
  match parse_timestamp tzOff ev with
  | Except.error u => Except.error u
  | Except.ok ts => validationGate (withTime (mapFields ev) ts)

/-- The raw event of spec Example 1. -/
def exampleRaw : RawEvent :=
  [("event_time", Json.str "2024-01-15 10:30:45.123456"),
   ("user_id", Json.str "u1"),
   ("event_type", Json.str "login")]

/-- A raw event whose only timestamp information is a numeric `time` of 0. -/
def zeroTimeRaw : RawEvent := [("time", Json.num 0)]

/-- A raw event with a numeric (but falsy) `user_id` of 0 and a non-empty
`event_type`. -/
def zeroUserRaw : RawEvent := [("user_id", Json.num 0), ("event_type", Json.str "login")]

/-- A valid-looking raw event whose `time` field is a truthy string that
`int()` cannot convert. -/
def badTimeRaw : RawEvent :=
  [("user_id", Json.str "u"), ("event_type", Json.str "t"), ("time", Json.str "abc")]

/-- A raw event carrying an empty array and a zero among its allow-listed
fields. -/
def emptyishRaw : RawEvent :=
  [("user_id", Json.str "u"), ("event_type", Json.str "t"),
   ("groups", Json.arr []), ("quantity", Json.num 0)]

/-- A raw event whose `event_time` has no fractional part. -/
def noFracRaw : RawEvent := [("event_time", Json.str "2024-01-15 10:30:45")]

/-- Validity predicate for an emitted batch, combining the three structural
loop invariants of `batch_events`: the batch is non-empty, respects the count
limit, and either respects the size limit or is a singleton. -/
def GoodBatch (api_key : String) (b : List Json) : Prop :=
  b ≠ [] ∧ b.length ≤ MAX_EVENTS_PER_BATCH ∧
    (estimate_payload_size api_key b ≤ SAFE_PAYLOAD_BYTES ∨ b.length = 1)


lemma closeB_flatten (bs : List (List Json)) (cur : List Json) :
    (closeB bs cur).flatten = bs.flatten ++ cur := by
  cases cur with
  | nil => simp [closeB]
  | cons a l => simp [closeB]

lemma closeB_mem {bs : List (List Json)} {cur b : List Json} (h : b ∈ closeB bs cur) :
    b ∈ bs ∨ (cur ≠ [] ∧ b = cur) := by
  cases cur with
  | nil =>
    simp only [closeB, List.isEmpty_nil, if_true] at h
    exact Or.inl h
  | cons a l =>
    simp only [closeB, List.isEmpty_cons, Bool.false_eq_true, if_false, List.mem_append,
      List.mem_singleton] at h
    rcases h with h | h
    · exact Or.inl h
    · exact Or.inr ⟨by simp, h⟩

lemma batchStep_close (k : String) (bs : List (List Json)) (cur : List Json) (e : Json)
    (h : MAX_EVENTS_PER_BATCH < (cur ++ [e]).length ∨
      SAFE_PAYLOAD_BYTES < estimate_payload_size k (cur ++ [e])) :
    batchStep k (bs, cur) e = (closeB bs cur, [e]) := by
  show (if MAX_EVENTS_PER_BATCH < (cur ++ [e]).length then (closeB bs cur, [e])
    else if SAFE_PAYLOAD_BYTES < estimate_payload_size k (cur ++ [e]) then (closeB bs cur, [e])
    else (bs, cur ++ [e])) = (closeB bs cur, [e])
  rcases h with h | h
  · rw [if_pos h]
  · by_cases h1 : MAX_EVENTS_PER_BATCH < (cur ++ [e]).length
    · rw [if_pos h1]
    · rw [if_neg h1, if_pos h]

lemma batchStep_grow (k : String) (bs : List (List Json)) (cur : List Json) (e : Json)
    (h1 : ¬ MAX_EVENTS_PER_BATCH < (cur ++ [e]).length)
    (h2 : ¬ SAFE_PAYLOAD_BYTES < estimate_payload_size k (cur ++ [e])) :
    batchStep k (bs, cur) e = (bs, cur ++ [e]) := by
  show (if MAX_EVENTS_PER_BATCH < (cur ++ [e]).length then (closeB bs cur, [e])
    else if SAFE_PAYLOAD_BYTES < estimate_payload_size k (cur ++ [e]) then (closeB bs cur, [e])
    else (bs, cur ++ [e])) = (bs, cur ++ [e])
  rw [if_neg h1, if_neg h2]

lemma batch_loop_flatten (k : String) :
    ∀ (es : List Json) (bs : List (List Json)) (cur : List Json),
      (es.foldl (batchStep k) (bs, cur)).1.flatten ++ (es.foldl (batchStep k) (bs, cur)).2
        = bs.flatten ++ cur ++ es := by
  intro es
  induction es with
  | nil => intro bs cur; simp
  | cons e es ih =>
    intro bs cur
    rw [List.foldl_cons]
    by_cases h1 : MAX_EVENTS_PER_BATCH < (cur ++ [e]).length
    · rw [batchStep_close k bs cur e (Or.inl h1), ih, closeB_flatten]
      simp
    · by_cases h2 : SAFE_PAYLOAD_BYTES < estimate_payload_size k (cur ++ [e])
      · rw [batchStep_close k bs cur e (Or.inr h2), ih, closeB_flatten]
        simp
      · rw [batchStep_grow k bs cur e h1 h2, ih]
        simp

lemma batch_loop_inv (k : String) :
    ∀ (es : List Json) (bs : List (List Json)) (cur : List Json),
      (∀ b ∈ bs, GoodBatch k b) → (cur = [] ∨ GoodBatch k cur) →
      (∀ b ∈ (es.foldl (batchStep k) (bs, cur)).1, GoodBatch k b) ∧
        ((es.foldl (batchStep k) (bs, cur)).2 = [] ∨
          GoodBatch k (es.foldl (batchStep k) (bs, cur)).2) := by
  intro es
  induction es with
  | nil => intro bs cur h1 h2; exact ⟨h1, h2⟩
  | cons e es ih =>
    intro bs cur h1 h2
    rw [List.foldl_cons]
    have hclose : ∀ b ∈ closeB bs cur, GoodBatch k b := by
      intro b hb
      rcases closeB_mem hb with hbs | ⟨hne, rfl⟩
      · exact h1 b hbs
      · rcases h2 with h2 | h2
        · exact absurd h2 hne
        · exact h2
    have hsing : GoodBatch k [e] :=
      ⟨by simp, by norm_num [MAX_EVENTS_PER_BATCH], Or.inr rfl⟩
    by_cases hc1 : MAX_EVENTS_PER_BATCH < (cur ++ [e]).length
    · rw [batchStep_close k bs cur e (Or.inl hc1)]
      exact ih _ _ hclose (Or.inr hsing)
    · by_cases hc2 : SAFE_PAYLOAD_BYTES < estimate_payload_size k (cur ++ [e])
      · rw [batchStep_close k bs cur e (Or.inr hc2)]
        exact ih _ _ hclose (Or.inr hsing)
      · rw [batchStep_grow k bs cur e hc1 hc2]
        refine ih _ _ h1 (Or.inr ⟨by simp, Nat.le_of_not_lt hc1, Or.inl (Nat.le_of_not_lt hc2)⟩)

lemma batch_events_good (events : List Json) (k : String) :
    ∀ b ∈ batch_events events k, GoodBatch k b := by
  intro b hb
  have h := batch_loop_inv k events [] [] (by simp) (Or.inl rfl)
  simp only [batch_events] at hb
  rcases closeB_mem hb with hbs | ⟨hne, rfl⟩
  · exact h.1 b hbs
  · rcases h.2 with h2 | h2
    · exact absurd h2 hne
    · exact h2

lemma batch_single (e : Json) (k : String) : batch_events [e] k = [[e]] := by
  have hstep : batchStep k ([], []) e = ([], [e]) := by
    have h1 : ¬ MAX_EVENTS_PER_BATCH < (([] : List Json) ++ [e]).length := by
      norm_num [MAX_EVENTS_PER_BATCH]
    by_cases h2 : SAFE_PAYLOAD_BYTES < estimate_payload_size k (([] : List Json) ++ [e])
    · rw [batchStep_close k [] [] e (Or.inr h2)]; rfl
    · rw [batchStep_grow k [] [] e h1 h2]; rfl
  simp only [batch_events, List.foldl_cons, List.foldl_nil, hstep]
  rfl

/-- C1: concatenating the batches returned by `batch_events` in emission order
yields exactly the input event list (no loss, no duplication, order
preserved), and the batch counts sum to the input length. -/
theorem batch_events_concat_eq (events : List Json) (api_key : String) :
    (batch_events events api_key).flatten = events ∧
      ((batch_events events api_key).map List.length).sum = events.length := by
  have h1 : (batch_events events api_key).flatten = events := by
    simp only [batch_events]
    rw [closeB_flatten]
    simpa using batch_loop_flatten api_key events [] []
  refine ⟨h1, ?_⟩
  rw [← List.length_flatten, h1]

/-- C4: every batch produced by `batch_events` contains at most
`MAX_EVENTS_PER_BATCH = 2000` events. -/
theorem batch_events_count_le (events : List Json) (api_key : String)
    (b : List Json) (hb : b ∈ batch_events events api_key) :
    b.length ≤ MAX_EVENTS_PER_BATCH :=
  (batch_events_good events api_key b hb).2.1

theorem batch_events_count_le_witness :
    ([Json.num 0] : List Json).length ≤ MAX_EVENTS_PER_BATCH :=
  batch_events_count_le [Json.num 0] "X" [Json.num 0]
    (by rw [batch_single]; exact List.mem_singleton.mpr rfl)

/-- C3: every batch produced by `batch_events` either has estimated payload
size at most `SAFE_PAYLOAD_BYTES`, or is a single-event batch whose lone
event's envelope alone already exceeds that limit. -/
theorem batch_events_size_invariant (events : List Json) (api_key : String)
    (b : List Json) (hb : b ∈ batch_events events api_key) :
    estimate_payload_size api_key b ≤ SAFE_PAYLOAD_BYTES ∨
      (b.length = 1 ∧ SAFE_PAYLOAD_BYTES < estimate_payload_size api_key b) := by
  rcases Nat.lt_or_ge SAFE_PAYLOAD_BYTES (estimate_payload_size api_key b) with h | h
  · rcases (batch_events_good events api_key b hb).2.2 with h' | h'
    · exact absurd h' (Nat.not_le_of_lt h)
    · exact Or.inr ⟨h', h⟩
  · exact Or.inl h

theorem batch_events_size_invariant_witness :
    estimate_payload_size "X" [Json.num 0] ≤ SAFE_PAYLOAD_BYTES ∨
      (([Json.num 0] : List Json).length = 1 ∧
        SAFE_PAYLOAD_BYTES < estimate_payload_size "X" [Json.num 0]) :=
  batch_events_size_invariant [Json.num 0] "X" [Json.num 0]
    (by rw [batch_single]; exact List.mem_singleton.mpr rfl)

/-- C10: no batch emitted by `batch_events` is empty, and the empty input
list yields the empty sequence of batches. -/
theorem batch_events_no_empty_batch (events : List Json) (api_key : String) :
    (∀ b ∈ batch_events events api_key, b ≠ []) ∧
      batch_events [] api_key = [] :=
  ⟨fun b hb => (batch_events_good events api_key b hb).1, rfl⟩

theorem batch_events_no_empty_batch_witness : ([Json.num 0] : List Json) ≠ [] :=
  (batch_events_no_empty_batch [Json.num 0] "X").1 [Json.num 0]
    (by rw [batch_single]; exact List.mem_singleton.mpr rfl)

lemma payload_serCount (k : String) (events : List Json) :
    serCount (create_payload k events) =
      (2 + (strBytes "api_key" + strBytes k + (strBytes "events" + (2 + (serCountArr events).1))),
        3 + (serCountArr events).2) := by
  simp only [create_payload, serCount, serCountObj, Prod.mk.injEq]
  exact ⟨trivial, by omega⟩

/-- C2 (amended): the size estimate used by the batching loop is the byte
length of the default-separator serialization, which strictly exceeds (by at
least the three envelope separators) the compact serialization actually sent
as the curl request body: an over-estimate, never an under-estimate. -/
theorem estimate_payload_size_overestimates (api_key : String) (events : List Json) :
    curl_body_bytes api_key events + 3 ≤ estimate_payload_size api_key events := by
  simp only [curl_body_bytes, estimate_payload_size, dumpsBytes, payload_serCount]
  omega

/-- C2 counterexample: already on the empty batch the estimate (30 bytes, with
spaces after `:` and `,`) differs from the bytes the generated curl command
sends (27 bytes, compact separators). -/
theorem estimate_payload_size_ne_curl_body :
    estimate_payload_size "X" [] ≠ curl_body_bytes "X" [] := by decide

lemma estimate_single_ge (k : String) (e : Json) :
    dumpsBytes 2 e ≤ estimate_payload_size k [e] := by
  simp only [estimate_payload_size, dumpsBytes, payload_serCount, serCountArr]
  omega

lemma bigN_total (n : Nat) : dumpsBytes 2 (bigN n) + 4 = 5 * 2 ^ n := by
  induction n with
  | zero => decide
  | succ n ih =>
    simp only [bigN, dumpsBytes, serCount, serCountArr] at ih ⊢
    rw [pow_succ]
    omega

/-- C5: a single event whose envelope alone exceeds `SAFE_PAYLOAD_BYTES` is
still emitted by `batch_events` as an ordinary batch in the ordinary result
list — structurally identical to the output for a tiny within-limit event —
with no flag, marker, or failure anywhere in the return value. -/
theorem oversize_singleton_emitted_unflagged :
    SAFE_PAYLOAD_BYTES < estimate_payload_size "X" [bigN 22] ∧
      batch_events [bigN 22] "X" = [[bigN 22]] ∧
      batch_events [Json.num 0] "X" = [[Json.num 0]] := by
  refine ⟨?_, batch_single _ _, batch_single _ _⟩
  have h := bigN_total 22
  have h2 := estimate_single_ge "X" (bigN 22)
  norm_num at h
  simp only [SAFE_PAYLOAD_BYTES]
  omega

lemma lookup_append_key_ne (a x : String) (h : (a == x) = false)
    (l : List (String × Json)) (t : Json) :
    List.lookup a (l ++ [(x, t)]) = List.lookup a l := by
  induction l with
  | nil => simp [List.lookup, h]
  | cons p l ih =>
    obtain ⟨y, w⟩ := p
    by_cases hy : (a == y) = true
    · simp [List.lookup, hy]
    · rw [Bool.not_eq_true] at hy
      simp only [List.cons_append, List.lookup, hy]
      exact ih

lemma withTime_lookup (key : String) (h : (key == "time") = false)
    (m : List (String × Json)) (ts : Option Int) :
    List.lookup key (withTime m ts) = List.lookup key m := by
  cases ts with
  | none => rfl
  | some t =>
    show List.lookup key (if t != 0 then m ++ [("time", Json.num t)] else m) = _
    by_cases ht : (t != 0) = true
    · rw [if_pos ht, lookup_append_key_ne key "time" h]
    · rw [if_neg ht]

lemma withTime_shape (m : List (String × Json)) (ts : Option Int) :
    withTime m ts = m ∨ ∃ t : Int, withTime m ts = m ++ [("time", Json.num t)] := by
  cases ts with
  | none => exact Or.inl rfl
  | some t =>
    by_cases ht : (t != 0) = true
    · refine Or.inr ⟨t, ?_⟩
      show (if t != 0 then m ++ [("time", Json.num t)] else m) = m ++ [("time", Json.num t)]
      rw [if_pos ht]
    · refine Or.inl ?_
      show (if t != 0 then m ++ [("time", Json.num t)] else m) = m
      rw [if_neg ht]

lemma validationGate_ok_none_iff (u : List (String × Json)) :
    validationGate u = Except.ok none ↔
      (truthyOpt (List.lookup "event_type" u) = false ∨
        (truthyOpt (List.lookup "user_id" u) = false ∧
          truthyOpt (List.lookup "device_id" u) = false)) := by
  cases hu : truthyOpt (List.lookup "user_id" u) <;>
    cases hd : truthyOpt (List.lookup "device_id" u) <;>
      cases he : truthyOpt (List.lookup "event_type" u) <;>
        simp [validationGate, hu, hd, he]

lemma validationGate_ne_error (u : List (String × Json)) :
    validationGate u ≠ Except.error () := by
  cases hu : truthyOpt (List.lookup "user_id" u) <;>
    cases hd : truthyOpt (List.lookup "device_id" u) <;>
      cases he : truthyOpt (List.lookup "event_type" u) <;>
        simp [validationGate, hu, hd, he]

lemma validationGate_ok_some {u out : List (String × Json)}
    (h : validationGate u = Except.ok (some out)) : out = u := by
  cases hu : truthyOpt (List.lookup "user_id" u) <;>
    cases hd : truthyOpt (List.lookup "device_id" u) <;>
      cases he : truthyOpt (List.lookup "event_type" u) <;>
        simp_all [validationGate]

/-- C6 (amended): when the timestamp step does not raise, `convert_event`
returns `none` iff, after field mapping, the record lacks a truthy
`event_type` or lacks both a truthy `user_id` and a truthy `device_id`
(Python truthiness: `0`, `false`, `""`, `[]`, `{}` and absence are all
falsy); and `convert_event` raises exactly when `parse_timestamp` raises,
i.e. when the `int()` fallback is reached with an unconvertible truthy
`time` value. -/
theorem convert_event_none_iff_truthy_gate (tz : Int) (ev : RawEvent) :
    (convert_event tz ev = Except.ok none ↔
      ((∃ ts, parse_timestamp tz ev = Except.ok ts) ∧
        (truthyOpt (List.lookup "event_type" (mapFields ev)) = false ∨
          (truthyOpt (List.lookup "user_id" (mapFields ev)) = false ∧
            truthyOpt (List.lookup "device_id" (mapFields ev)) = false)))) ∧
    (convert_event tz ev = Except.error () ↔ parse_timestamp tz ev = Except.error ()) := by
  cases hp : parse_timestamp tz ev with
  | error u =>
    cases u
    have hc : convert_event tz ev = Except.error () := by
      unfold convert_event; rw [hp]
    constructor
    · rw [hc]; simp [hp]
    · rw [hc]; simp [hp]
  | ok ts =>
    have hc : convert_event tz ev = validationGate (withTime (mapFields ev) ts) := by
      unfold convert_event; rw [hp]
    have hlu := withTime_lookup "user_id" (by decide) (mapFields ev) ts
    have hld := withTime_lookup "device_id" (by decide) (mapFields ev) ts
    have hle := withTime_lookup "event_type" (by decide) (mapFields ev) ts
    constructor
    · rw [hc, validationGate_ok_none_iff, hlu, hld, hle]
      simp [hp]
    · rw [hc]
      constructor
      · intro h; exact absurd h (validationGate_ne_error _)
      · intro h; exact absurd h (by simp)

/-- C6 counterexample: for the event with `user_id = 0` and
`event_type = "login"`, both fields are present (and non-empty) after field
mapping, yet `convert_event` rejects it with `none` (truthiness, not
presence, is checked); and for a valid event carrying `time = "abc"`,
`convert_event` raises instead of returning. -/
theorem convert_event_claim_counterexample :
    List.lookup "user_id" (mapFields zeroUserRaw) = some (Json.num 0) ∧
    List.lookup "event_type" (mapFields zeroUserRaw) = some (Json.str "login") ∧
    convert_event 0 zeroUserRaw = Except.ok none ∧
    convert_event 0 badTimeRaw = Except.error () :=
  ⟨rfl, rfl, rfl, rfl⟩

/-- C7 (amended): `parse_timestamp` tries `event_time`,
`client_event_time`, `server_received_time` in that order; the first field
that parses as `"%Y-%m-%d %H:%M:%S[.%f]"` wins and is converted to epoch
milliseconds; if none parses, it falls back to `int()` of the `time` field
only when that field is present and truthy — a present `time` equal to `0`
is ignored and yields no timestamp. -/
theorem parse_timestamp_resolution_order (tz : Int) (ev : RawEvent) :
    (∀ dt, tryField ev "event_time" = some dt →
      parse_timestamp tz ev = Except.ok (some (toMillis tz dt))) ∧
    (∀ dt, tryField ev "event_time" = none →
      tryField ev "client_event_time" = some dt →
      parse_timestamp tz ev = Except.ok (some (toMillis tz dt))) ∧
    (∀ dt, tryField ev "event_time" = none →
      tryField ev "client_event_time" = none →
      tryField ev "server_received_time" = some dt →
      parse_timestamp tz ev = Except.ok (some (toMillis tz dt))) ∧
    (∀ v n, tryField ev "event_time" = none →
      tryField ev "client_event_time" = none →
      tryField ev "server_received_time" = none →
      List.lookup "time" ev = some v → truthy v = true → pyInt v = some n →
      parse_timestamp tz ev = Except.ok (some n)) ∧
    (∀ v, tryField ev "event_time" = none →
      tryField ev "client_event_time" = none →
      tryField ev "server_received_time" = none →
      List.lookup "time" ev = some v → truthy v = false →
      parse_timestamp tz ev = Except.ok none) ∧
    (tryField ev "event_time" = none →
      tryField ev "client_event_time" = none →
      tryField ev "server_received_time" = none →
      List.lookup "time" ev = none →
      parse_timestamp tz ev = Except.ok none) := by
  refine ⟨?_, ?_, ?_, ?_, ?_, ?_⟩
  · intro dt h1
    simp [parse_timestamp, tsFields, h1]
  · intro dt h1 h2
    simp [parse_timestamp, tsFields, h1, h2]
  · intro dt h1 h2 h3
    simp [parse_timestamp, tsFields, h1, h2, h3]
  · intro v n h1 h2 h3 hl ht hpy
    simp [parse_timestamp, tsFields, h1, h2, h3, hl, ht, hpy]
  · intro v h1 h2 h3 hl ht
    simp [parse_timestamp, tsFields, h1, h2, h3, hl, ht]
  · intro h1 h2 h3 hl
    simp [parse_timestamp, tsFields, h1, h2, h3, hl]

/-- Witness for C7 at the concrete event whose `event_time` is
`"2024-01-15 10:30:45"`. -/
theorem parse_timestamp_resolution_order_witness :
    parse_timestamp 0 noFracRaw = Except.ok (some 1705314645000) :=
  (parse_timestamp_resolution_order 0 noFracRaw).1 ⟨2024, 1, 15, 10, 30, 45, 0⟩ rfl

/-- C7 counterexample: with no parseable string timestamp field and a
present numeric `time` of `0`, the claimed fallback does not happen: the
code's truthiness check skips the `time` field and resolution yields
nothing. -/
theorem parse_timestamp_zero_time_counterexample :
    List.lookup "time" zeroTimeRaw = some (Json.num 0) ∧
    parse_timestamp 0 zeroTimeRaw = Except.ok none :=
  ⟨rfl, rfl⟩

/-- C8: spec Example 1 evaluated through the code.  `datetime.strptime`
produces a naive datetime and `.timestamp()` interprets it in the process's
local timezone, so the claimed output `time = 1705314645123` is produced
only when the local offset is 0 (UTC); at UTC+01:00 the very same event
yields `time = 1705311045123`, contradicting the claimed UTC
interpretation. -/
theorem convert_event_example_timezone_dependent :
    convert_event 3600 exampleRaw =
      Except.ok (some [("user_id", Json.str "u1"), ("event_type", Json.str "login"),
        ("time", Json.num 1705311045123)]) ∧
    convert_event 0 exampleRaw =
      Except.ok (some [("user_id", Json.str "u1"), ("event_type", Json.str "login"),
        ("time", Json.num 1705314645123)]) :=
  ⟨rfl, rfl⟩

lemma mapFields_eq_filterMap (ev : RawEvent) :
    mapFields ev = FIELD_MAPPING.filterMap
      (fun p =>
        match List.lookup p.1 ev with
        | some v => if keptValue v then some (p.2, v) else none
        | none => none) := by
  suffices h : ∀ (L : List (String × String)) (acc : List (String × Json)),
      L.foldl (fun acc p =>
        match List.lookup p.1 ev with
        | some v => if keptValue v then acc ++ [(p.2, v)] else acc
        | none => acc) acc
      = acc ++ L.filterMap (fun p =>
          match List.lookup p.1 ev with
          | some v => if keptValue v then some (p.2, v) else none
          | none => none) by
    simpa [mapFields] using h FIELD_MAPPING []
  intro L
  induction L with
  | nil => intro acc; simp
  | cons p L ih =>
    intro acc
    rw [List.foldl_cons, List.filterMap_cons]
    cases hl : List.lookup p.1 ev with
    | none => simp [hl, ih]
    | some v =>
      by_cases hk : keptValue v = true
      · simp [hl, hk, ih]
      · simp [hl, hk, ih]

/-- C9: during field copy only `null`, the empty string and the empty
object are treated as absent: an allow-listed field holding `[]` or `0` is
copied unchanged into the mapped record, and it survives into any record
`convert_event` returns. -/
theorem convert_event_copies_empty_array_and_zero (ev : RawEvent) (f : String) (v : Json)
    (h1 : (f, f) ∈ FIELD_MAPPING) (h2 : List.lookup f ev = some v)
    (h3 : v = Json.arr [] ∨ v = Json.num 0) :
    (f, v) ∈ mapFields ev ∧
      ∀ tz out, convert_event tz ev = Except.ok (some out) → (f, v) ∈ out := by
  have hkept : keptValue v = true := by rcases h3 with rfl | rfl <;> rfl
  have hm : (f, v) ∈ mapFields ev := by
    rw [mapFields_eq_filterMap]
    exact List.mem_filterMap.mpr ⟨(f, f), h1, by simp [h2, hkept]⟩
  refine ⟨hm, ?_⟩
  intro tz out h
  cases hp : parse_timestamp tz ev with
  | error u =>
    have hc : convert_event tz ev = Except.error u := by
      unfold convert_event; rw [hp]
    rw [hc] at h
    exact absurd h (by simp)
  | ok ts =>
    have hc : convert_event tz ev = validationGate (withTime (mapFields ev) ts) := by
      unfold convert_event; rw [hp]
    rw [hc] at h
    have hout := validationGate_ok_some h
    rcases withTime_shape (mapFields ev) ts with hw | ⟨t, hw⟩
    · rw [hout, hw]; exact hm
    · rw [hout, hw]; exact List.mem_append_left _ hm

/-- Witness for C9 at a concrete event carrying `groups = []`. -/
theorem convert_event_copies_empty_array_and_zero_witness :
    ("groups", Json.arr []) ∈ mapFields emptyishRaw :=
  (convert_event_copies_empty_array_and_zero emptyishRaw "groups" (Json.arr [])
    (by decide) rfl (Or.inl rfl)).1
